import Mathlib

/-
Shallow embedding of the Pulse Afisha backend (src/backend/app), covering the
handlers and data model referenced by the verification claims.

Modelling conventions:
* Database tables are Lean lists of row structures; a request handler is a
  function from the database state (plus the authenticated user and request
  payload) to a response together with the resulting database state.
* SQLAlchemy `DateTime` columns are modelled as `Int` timestamps and `Float`
  geo coordinates as `Int`; the handlers only compare these values, so the
  claims are insensitive to the numeric carrier.
* `scalar_one_or_none` is modelled by `List.find?`; the database's unique
  constraints (primary keys, `uq_event_rsvp_user_event`,
  `uq_favorite_user_event`) guarantee at most one matching row.
* `created_at` / `updated_at` bookkeeping columns are omitted; no claim
  mentions them.  `resolved_at` is kept (claim about approve).
* Password hashing (`passlib` bcrypt) is kept abstract: `login_user` takes the
  `verify_password` predicate as a parameter.
* JWT decoding is kept abstract: an incoming bearer token is modelled by the
  outcome of `decode_token` (`TokenDecode`).
-/

/-- Modelled from the spec: the request/transaction wrapper
`app.db.session.get_session` is imported by every route module but its source
file is not part of the sources.  Per the spec ("execute one or more database
statements inside an implicit transaction → commit", "no partial-failure
semantics", error responses "raised synchronously"), a handler that raises an
HTTPException terminates without committing, so the persistent state after an
error response equals the state before the request.  Handlers below therefore
return the unchanged input state on every error path.  This marker definition
records that modelling decision. -/
def sessionRollsBackOnError : Prop := True

/-- EventStatus enum from app/models/event.py. -/
inductive EventStatus where
  | draft
  | pending_moderation
  | published
  | rejected
  | archived
deriving DecidableEq, Repr

/-- UserRole enum from app/models/user.py. -/
inductive UserRole where
  | admin
  | organizer
  | user
deriving DecidableEq, Repr

/-- RSVPStatus enum from app/models/event_rsvp.py. -/
inductive RSVPStatus where
  | going
  | interested
  | canceled
deriving DecidableEq, Repr

/-- OrganizerRequestStatus enum from app/models/organizer_request.py. -/
inductive OrganizerRequestStatus where
  | pending
  | approved
  | rejected
deriving DecidableEq, Repr

/-- Row of the user table (app/models/user.py), the fields the claims touch. -/
structure UserRow where
  id : Nat
  email : String
  hashed_password : String
  role : UserRole
  is_blocked : Bool
deriving DecidableEq, Repr

/-- Row of the eventcategory table (app/models/event.py). -/
structure CategoryRow where
  id : Nat
  name : String
  slug : String
deriving DecidableEq, Repr

/-- Row of the event table (app/models/event.py). -/
structure EventRow where
  id : Nat
  title : String
  description : Option String
  category_id : Nat
  organizer_id : Nat
  status : EventStatus
  starts_at : Int
  ends_at : Option Int
  address_text : Option String
  latitude : Int
  longitude : Int
  is_free : Bool
  price_from : Option Int
  capacity : Option Int
  moderation_comment : Option String
deriving DecidableEq, Repr

/-- Row of the event_rsvp table (app/models/event_rsvp.py). -/
structure RSVPRow where
  id : Nat
  user_id : Nat
  event_id : Nat
  status : RSVPStatus
deriving DecidableEq, Repr

/-- Row of the favorite_event table (app/models/favorite_event.py). -/
structure FavoriteRow where
  id : Nat
  user_id : Nat
  event_id : Nat
deriving DecidableEq, Repr

/-- Row of the organizer_request table (app/models/organizer_request.py). -/
structure OrganizerRequestRow where
  id : Nat
  user_id : Nat
  status : OrganizerRequestStatus
  message : Option String
  admin_comment : Option String
  resolved_at : Option Int
deriving DecidableEq, Repr

/-- The persistent database state: one list per table used by the claims. -/
structure DBState where
  users : List UserRow
  categories : List CategoryRow
  events : List EventRow
  rsvps : List RSVPRow
  favorites : List FavoriteRow
  organizer_requests : List OrganizerRequestRow
deriving DecidableEq, Repr

/-- HTTP response of a handler: success with a status code and value, or an
HTTPException with a status code and detail string. -/
inductive Resp (α : Type) where
  | ok (code : Nat) (val : α)
  | err (code : Nat) (detail : String)
deriving DecidableEq, Repr

/-- True when the response is an HTTPException. -/
def Resp.isErr {α : Type} : Resp α → Bool
  | .err _ _ => true
  | .ok _ _ => false

/-- True when the response is a success. -/
def Resp.isOk {α : Type} : Resp α → Bool
  | .ok _ _ => true
  | .err _ _ => false

/-- Whitespace test for the model of Python `str.strip()`. -/
def isSpaceChar (c : Char) : Bool :=
  c == ' ' || c == '\t' || c == '\n' || c == '\r'

/-- Drop leading whitespace characters. -/
def dropLeadingSpaces : List Char → List Char
  | [] => []
  | c :: t => if isSpaceChar c then dropLeadingSpaces t else c :: t

/-- Python `str.strip()` on the character list: drop trailing, then leading
whitespace. -/
def trimChars (l : List Char) : List Char :=
  dropLeadingSpaces (dropLeadingSpaces l.reverse).reverse

/-- Python `str.strip()`. -/
def trimString (s : String) : String :=
  String.mk (trimChars s.data)

/-- Python `str.lower()`. -/
def lowerString (s : String) : String :=
  String.mk (s.data.map Char.toLower)

/-- Emptiness test on the character data of a string. -/
def strIsEmpty (s : String) : Bool :=
  s.data.isEmpty

/-- Python `email.strip().lower()` used by register/login/forgot-password. -/
def normalizeEmail (s : String) : String :=
  lowerString (trimString s)

/-- Helper for SQL ILIKE with a pattern of shape percent-q-percent: does
`needle` occur as a contiguous substring of `hay` (both already lowered)? -/
def subSeqAt (needle : List Char) : List Char → Bool
  | [] => needle.isEmpty
  | c :: t => needle.isPrefixOf (c :: t) || subSeqAt needle t

/-- Case-insensitive containment, modelling `column.ilike(f"%{q}%")`. -/
def ilikeContains (hay q : String) : Bool :=
  subSeqAt (lowerString q).toList (lowerString hay).toList

/-- Fresh primary key for an inserted rsvp row. -/
def freshRsvpId (st : DBState) : Nat :=
  st.rsvps.foldr (fun r m => max r.id m) 0 + 1

/-- Fresh primary key for an inserted favorite row. -/
def freshFavoriteId (st : DBState) : Nat :=
  st.favorites.foldr (fun r m => max r.id m) 0 + 1

/-- Fresh primary key for an inserted event row. -/
def freshEventId (st : DBState) : Nat :=
  st.events.foldr (fun r m => max r.id m) 0 + 1

/-- Outcome of `decode_token` on the bearer token (app/core/security.py kept
abstract): either the token is invalid, or it decodes to a payload whose `sub`
claim may be absent. -/
inductive TokenDecode where
  | invalid
  | payload (sub : Option Nat)
deriving DecidableEq, Repr

/-- get_current_user from app/api/deps/auth.py: decode the token, load the
user row, reject blocked accounts with 403. -/
def get_current_user (st : DBState) (tok : TokenDecode) : Resp UserRow :=
  match tok with
  | .invalid => .err 401 "Невалидный токен"
  | .payload none => .err 401 "Невалидный токен"
  | .payload (some uid) =>
    match st.users.find? (fun u => u.id == uid) with
    | none => .err 401 "Пользователь не найден"
    | some u =>
      if u.is_blocked then .err 403 "Аккаунт заблокирован"
      else .ok 200 u

/-- FastAPI dependency chain for an authenticated route: `get_current_user`
runs first; only when it succeeds does the route handler body run. -/
def runAuthed {α : Type} (st : DBState) (tok : TokenDecode)
    (handler : UserRow → DBState → Resp α × DBState) : Resp α × DBState :=
  match get_current_user st tok with
  | .err c d => (.err c d, st)
  | .ok _ u => handler u st

/-- login_user from app/api/routes/auth.py.  `verify` is the abstract
`verify_password(plain, hashed)` predicate; on success the handler returns a
token for the user (modelled by the user id placed in the token payload). -/
def login_user (verify : String → String → Bool) (st : DBState)
    (username password : String) : Resp Nat :=
  let ne := normalizeEmail username
  match st.users.find? (fun u => u.email == ne) with
  | none => .err 400 "Неверный email или пароль"
  | some u =>
    if !(verify password u.hashed_password) then
      .err 400 "Неверный email или пароль"
    else if u.is_blocked then
      .err 403 "Аккаунт заблокирован"
    else
      .ok 200 u.id

/-- Query parameters of GET /events/ (app/api/routes/events.py,
list_events). -/
structure ListEventsQuery where
  category_id : Option Nat := none
  date_from : Option Int := none
  date_to : Option Int := none
  q : Option String := none
  lat_min : Option Int := none
  lat_max : Option Int := none
  lng_min : Option Int := none
  lng_max : Option Int := none
  limit : Nat := 20
  offset : Nat := 0
deriving Repr

/-- The WHERE clause assembled by list_events: the base condition
`Event.status == published` plus one condition per supplied filter. -/
def eventMatchesFilters (f : ListEventsQuery) (e : EventRow) : Bool :=
  (e.status == .published)
  && (match f.category_id with
      | none => true
      | some c => e.category_id == c)
  && (match f.date_from with
      | none => true
      | some d => decide (d ≤ e.starts_at))
  && (match f.date_to with
      | none => true
      | some d => decide (e.starts_at ≤ d))
  && (match f.q with
      | none => true
      | some q =>
        if strIsEmpty q then true
        else
          ilikeContains e.title q
          || (match e.description with
              | none => false
              | some d => ilikeContains d q))
  && (match f.lat_min, f.lat_max, f.lng_min, f.lng_max with
      | some a, some b, some c, some d =>
        decide (a ≤ e.latitude) && decide (e.latitude ≤ b)
          && decide (c ≤ e.longitude) && decide (e.longitude ≤ d)
      | _, _, _, _ => true)

/-- Insert an event into a list sorted by `starts_at` (ascending). -/
def insertByStarts (e : EventRow) : List EventRow → List EventRow
  | [] => [e]
  | x :: xs =>
    if e.starts_at ≤ x.starts_at then e :: x :: xs
    else x :: insertByStarts e xs

/-- ORDER BY Event.starts_at, as an insertion sort. -/
def sortByStarts : List EventRow → List EventRow
  | [] => []
  | x :: xs => insertByStarts x (sortByStarts xs)

/-- list_events from app/api/routes/events.py: published events with the
optional filters, ordered by starts_at, with OFFSET and LIMIT. -/
def list_events (st : DBState) (f : ListEventsQuery) : List EventRow :=
  ((sortByStarts (st.events.filter (eventMatchesFilters f))).drop f.offset).take f.limit

/-- get_event from app/api/routes/events.py: a single event by id, restricted
to status published; 404 otherwise. -/
def get_event (st : DBState) (event_id : Nat) : Resp EventRow :=
  match st.events.find? (fun e => e.id == event_id && e.status == .published) with
  | none => .err 404 "Событие не найдено"
  | some e => .ok 200 e

/-- list_my_favorites from app/api/routes/favorites.py: events joined with the
current user's favorite rows, restricted to status published.  (The ordering
by the favorite row's created_at is not modelled; no claim depends on it.) -/
def list_my_favorites (st : DBState) (current_user : UserRow) : List EventRow :=
  st.events.filter (fun e =>
    e.status == .published
    && st.favorites.any (fun f => f.user_id == current_user.id && f.event_id == e.id))

/-- set_event_rsvp from app/api/routes/events.py: 404 unless the event exists
and is published; then update the existing rsvp row for (user, event) if one
exists, else insert a new one. -/
def set_event_rsvp (st : DBState) (current_user : UserRow) (event_id : Nat)
    (payload_status : RSVPStatus) : Resp RSVPRow × DBState :=
  match st.events.find? (fun e => e.id == event_id && e.status == .published) with
  | none => (.err 404 "Событие не найдено или не опубликовано", st)
  | some _ =>
    match st.rsvps.find? (fun r => r.user_id == current_user.id && r.event_id == event_id) with
    | none =>
      let row : RSVPRow :=
        { id := freshRsvpId st
          user_id := current_user.id
          event_id := event_id
          status := payload_status }
      (.ok 200 row, { st with rsvps := st.rsvps ++ [row] })
    | some r =>
      let updated := { r with status := payload_status }
      (.ok 200 updated,
        { st with
            rsvps := st.rsvps.map (fun x =>
              if x.user_id == current_user.id && x.event_id == event_id then
                { x with status := payload_status }
              else x) })

/-- add_favorite from app/api/routes/favorites.py: 404 unless the event exists
and is published; if a favorite row for (user, event) already exists return
without inserting, else insert one. -/
def add_favorite (st : DBState) (current_user : UserRow) (event_id : Nat) :
    Resp Bool × DBState :=
  match st.events.find? (fun e => e.id == event_id && e.status == .published) with
  | none => (.err 404 "Событие не найдено или не опубликовано", st)
  | some _ =>
    match st.favorites.find? (fun f => f.user_id == current_user.id && f.event_id == event_id) with
    | some _ => (.ok 201 true, st)
    | none =>
      let fav : FavoriteRow :=
        { id := freshFavoriteId st
          user_id := current_user.id
          event_id := event_id }
      (.ok 201 true, { st with favorites := st.favorites ++ [fav] })

/-- remove_favorite from app/api/routes/favorites.py: DELETE the (user, event)
favorite rows unconditionally and answer 200 with is_favorite false. -/
def remove_favorite (st : DBState) (current_user : UserRow) (event_id : Nat) :
    Resp Bool × DBState :=
  (.ok 200 false,
    { st with
        favorites := st.favorites.filter (fun f =>
          !(f.user_id == current_user.id && f.event_id == event_id)) })

/-- Body of POST /events/ (app/schemas/event.py, EventCreate). -/
structure EventCreate where
  title : String
  description : Option String := none
  category_id : Nat
  starts_at : Int
  ends_at : Option Int := none
  address_text : Option String := none
  latitude : Int
  longitude : Int
  is_free : Bool := true
  price_from : Option Int := none
  capacity : Option Int := none
deriving Repr

/-- Body of PUT /events/«id» (app/schemas/event.py, EventUpdate): every field
optional. -/
structure EventUpdatePayload where
  title : Option String := none
  description : Option String := none
  category_id : Option Nat := none
  starts_at : Option Int := none
  ends_at : Option Int := none
  address_text : Option String := none
  latitude : Option Int := none
  longitude : Option Int := none
  is_free : Option Bool := none
  price_from : Option Int := none
  capacity : Option Int := none
deriving Repr

/-- create_event from app/api/routes/events.py: 400 when the category does not
exist, else insert a new event with status draft and the current user as
organizer. -/
def create_event (st : DBState) (current_user : UserRow) (p : EventCreate) :
    Resp EventRow × DBState :=
  match st.categories.find? (fun c => c.id == p.category_id) with
  | none => (.err 400 "Указанная категория не существует", st)
  | some _ =>
    let event : EventRow :=
      { id := freshEventId st
        title := p.title
        description := p.description
        category_id := p.category_id
        organizer_id := current_user.id
        status := .draft
        starts_at := p.starts_at
        ends_at := p.ends_at
        address_text := p.address_text
        latitude := p.latitude
        longitude := p.longitude
        is_free := p.is_free
        price_from := p.price_from
        capacity := p.capacity
        moderation_comment := none }
    (.ok 201 event, { st with events := st.events ++ [event] })

/-- Field assignments of update_event that happen after the category check:
starts_at through capacity, in source order (note: `is_free = true` clears
price_from, but a later supplied price_from overwrites the cleared value). -/
def applyUpdateTail (p : EventUpdatePayload) (e : EventRow) : EventRow :=
  let e := { e with starts_at := p.starts_at.getD e.starts_at }
  let e := { e with ends_at := match p.ends_at with
                               | none => e.ends_at
                               | some v => some v }
  let e := { e with address_text := match p.address_text with
                                    | none => e.address_text
                                    | some v => some v }
  let e := { e with latitude := p.latitude.getD e.latitude }
  let e := { e with longitude := p.longitude.getD e.longitude }
  let e := match p.is_free with
           | none => e
           | some b =>
             let e2 := { e with is_free := b }
             if b then { e2 with price_from := none } else e2
  let e := { e with price_from := match p.price_from with
                                  | none => e.price_from
                                  | some v => some v }
  { e with capacity := match p.capacity with
                       | none => e.capacity
                       | some v => some v }

/-- The row update_event finally stores: the tail assignments applied, and a
previously published event edited by a non-admin sent back to moderation with
the moderation comment cleared. -/
def finalRow (current_user : UserRow) (p : EventUpdatePayload)
    (was_published : Bool) (e : EventRow) : EventRow :=
  let e3 := applyUpdateTail p e
  if current_user.role != .admin && was_published then
    { e3 with status := EventStatus.pending_moderation, moderation_comment := none }
  else e3

/-- Success tail of update_event: apply the remaining field assignments, send
a previously published event back to moderation when the caller is not an
admin, and write the updated row back. -/
def finishUpdate (st : DBState) (current_user : UserRow) (event_id : Nat)
    (p : EventUpdatePayload) (was_published : Bool) (e : EventRow) :
    Resp EventRow × DBState :=
  let e4 := finalRow current_user p was_published e
  (.ok 200 e4,
    { st with events := st.events.map (fun ev => if ev.id == event_id then e4 else ev) })

/-- update_event from app/api/routes/events.py: 404 when absent, 403 for a
foreign event, 400 for an archived event (non-admin), 400 when the new
category does not exist; on success the fields are applied in source order and
a published event edited by a non-admin goes back to pending_moderation with
the moderation comment cleared. -/
def update_event (st : DBState) (current_user : UserRow) (event_id : Nat)
    (p : EventUpdatePayload) : Resp EventRow × DBState :=
  match st.events.find? (fun e => e.id == event_id) with
  | none => (.err 404 "Событие не найдено", st)
  | some event =>
    if current_user.role != .admin && event.organizer_id != current_user.id then
      (.err 403 "Нельзя редактировать чужое событие", st)
    else if current_user.role != .admin && event.status == .archived then
      (.err 400 "Архивные события нельзя редактировать", st)
    else
      let was_published := event.status == .published
      let e1 := { event with title := p.title.getD event.title }
      let e2 := { e1 with description := match p.description with
                                         | none => e1.description
                                         | some d => some d }
      match p.category_id with
      | none => finishUpdate st current_user event_id p was_published e2
      | some cid =>
        match st.categories.find? (fun c => c.id == cid) with
        | none => (.err 400 "Указанная категория не существует", st)
        | some _ =>
          finishUpdate st current_user event_id p was_published { e2 with category_id := cid }

/-- submit_event_for_moderation from app/api/routes/events.py: 404 when
absent, 403 for a foreign event (non-admin), 400 unless the status is draft or
rejected; on success the status becomes pending_moderation and the moderation
comment is cleared. -/
def submit_event_for_moderation (st : DBState) (current_user : UserRow)
    (event_id : Nat) : Resp EventRow × DBState :=
  match st.events.find? (fun e => e.id == event_id) with
  | none => (.err 404 "Событие не найдено", st)
  | some event =>
    if current_user.role != .admin && event.organizer_id != current_user.id then
      (.err 403 "Нельзя отправлять на модерацию чужое событие", st)
    else if !(event.status == .draft || event.status == .rejected) then
      (.err 400 "Отправить на модерацию можно только черновик или отклонённое событие", st)
    else
      let e2 := { event with status := EventStatus.pending_moderation,
                             moderation_comment := none }
      (.ok 200 e2,
        { st with events := st.events.map (fun ev => if ev.id == event_id then e2 else ev) })

/-- publish_event from app/api/routes/admin_events.py: 404 when absent, 400
when already published; any other status (draft, pending_moderation, rejected,
archived) becomes published.  `comment` is `body.moderation_comment if body
else None`. -/
def publish_event (st : DBState) (event_id : Nat) (comment : Option String) :
    Resp EventRow × DBState :=
  match st.events.find? (fun e => e.id == event_id) with
  | none => (.err 404 "Событие не найдено", st)
  | some event =>
    if event.status == .published then
      (.err 400 "Событие уже опубликовано", st)
    else
      let e2 := { event with status := EventStatus.published,
                             moderation_comment := comment }
      (.ok 200 e2,
        { st with events := st.events.map (fun ev => if ev.id == event_id then e2 else ev) })

/-- reject_event from app/api/routes/admin_events.py: 404 when absent, 400
unless the status is pending_moderation; the comment is normalised with a
default. -/
def reject_event (st : DBState) (event_id : Nat) (comment : Option String) :
    Resp EventRow × DBState :=
  match st.events.find? (fun e => e.id == event_id) with
  | none => (.err 404 "Событие не найдено", st)
  | some event =>
    if !(event.status == .pending_moderation) then
      (.err 400 "Можно отклонить только событие в статусе 'на модерации'", st)
    else
      let c := trimString (comment.getD "")
      let c2 := if strIsEmpty c then "Событие отклонено модератором" else c
      let e2 := { event with status := EventStatus.rejected,
                             moderation_comment := some c2 }
      (.ok 200 e2,
        { st with events := st.events.map (fun ev => if ev.id == event_id then e2 else ev) })

/-- The approved request row written by approve_organizer_request: status
approved, resolved_at set to now, admin_comment normalised with a default. -/
def approvedRow (now : Int) (req : OrganizerRequestRow) : OrganizerRequestRow :=
  let c := trimString (req.admin_comment.getD "")
  let c2 := if strIsEmpty c then "Одобрено администратором" else c
  { req with status := OrganizerRequestStatus.approved,
             resolved_at := some now,
             admin_comment := some c2 }

/-- approve_organizer_request from app/api/routes/admin_organizer_requests.py:
404 when the request is absent, 400 unless its status is pending, 404 when the
requesting user is absent; on success the request becomes approved with
resolved_at set and the user's role becomes organizer, committed together.
`now` models `datetime.utcnow()`. -/
def approve_organizer_request (st : DBState) (now : Int) (request_id : Nat) :
    Resp OrganizerRequestRow × DBState :=
  match st.organizer_requests.find? (fun r => r.id == request_id) with
  | none => (.err 404 "Заявка не найдена", st)
  | some req =>
    if !(req.status == .pending) then
      (.err 400 "Можно одобрить только заявку в статусе pending", st)
    else
      match st.users.find? (fun u => u.id == req.user_id) with
      | none => (.err 404 "Пользователь заявки не найден", st)
      | some _ =>
        let req2 := approvedRow now req
        (.ok 200 req2,
          { st with
              organizer_requests := st.organizer_requests.map (fun r =>
                if r.id == request_id then req2 else r)
              users := st.users.map (fun u =>
                if u.id == req.user_id then { u with role := UserRole.organizer } else u) })

/-- The uniform success detail of forgot_password. -/
def forgotPasswordDetail : String :=
  "Если такой email зарегистрирован в системе, мы отправили ссылку для восстановления пароля."

/-- forgot_password from app/api/routes/auth.py.  `send_fails` models whether
`send_email` raises; the exception is swallowed (logged only).  The third
component is the list of emails actually delivered. -/
def forgot_password (st : DBState) (email : String) (send_fails : Bool) :
    Resp String × DBState × List String :=
  let ne := normalizeEmail email
  match st.users.find? (fun u => u.email == ne) with
  | none => (.ok 200 forgotPasswordDetail, st, [])
  | some u =>
    (.ok 200 forgotPasswordDetail, st, if send_fails then [] else [u.email])

/-- The status transitions listed by the spec sentence
"draft → pending_moderation → published/rejected → archived". -/
def specTransition (a b : EventStatus) : Bool :=
  (a == .draft && b == .pending_moderation)
  || (a == .pending_moderation && b == .published)
  || (a == .pending_moderation && b == .rejected)
  || (a == .published && b == .archived)
  || (a == .rejected && b == .archived)

/-- The status transitions the handlers actually implement: submit moves draft
or rejected to pending_moderation; publish moves any non-published status to
published; reject moves pending_moderation to rejected; a non-admin update of
a published event moves it to pending_moderation.  No handler produces
archived. -/
def codeTransition (a b : EventStatus) : Bool :=
  ((a == .draft || a == .rejected) && b == .pending_moderation)
  || (!(a == .published) && b == .published)
  || (a == .pending_moderation && b == .rejected)
  || (a == .published && b == .pending_moderation)

/-- One RSVP row per (user, event): pairwise distinct key pairs. -/
def rsvpsUnique (l : List RSVPRow) : Prop :=
  l.Pairwise (fun a b => ¬(a.user_id = b.user_id ∧ a.event_id = b.event_id))

/-- One favorite row per (user, event): pairwise distinct key pairs. -/
def favoritesUnique (l : List FavoriteRow) : Prop :=
  l.Pairwise (fun a b => ¬(a.user_id = b.user_id ∧ a.event_id = b.event_id))

/-- Referential integrity of events: every event row names an existing
category and an existing organizer. -/
def eventRefsValid (st : DBState) : Prop :=
  ∀ e ∈ st.events,
    (∃ c ∈ st.categories, c.id = e.category_id)
    ∧ (∃ u ∈ st.users, u.id = e.organizer_id)

/-- Positional comparison of an event table before and after a request: every
row keeps its id, and its status either is unchanged or moved along an
implemented transition. -/
def statusStepOKB : List EventRow → List EventRow → Bool
  | [], [] => true
  | a :: as, b :: bs =>
    (a.id == b.id)
      && (a.status == b.status || codeTransition a.status b.status)
      && statusStepOKB as bs
  | _, _ => false

/-- Concrete user row used by the witness instances. -/
def userAlice : UserRow :=
  { id := 1, email := "alice@example.com", hashed_password := "hp",
    role := UserRole.organizer, is_blocked := false }

/-- Concrete blocked user row used by the witness instances. -/
def userBlocked : UserRow :=
  { id := 2, email := "bob@example.com", hashed_password := "pw",
    role := UserRole.user, is_blocked := true }

/-- Concrete category row used by the witness instances. -/
def cat1 : CategoryRow :=
  { id := 1, name := "Концерты", slug := "concerts" }

/-- Concrete published event used by the witness instances. -/
def e1pub : EventRow :=
  { id := 1, title := "Концерт", description := none, category_id := 1,
    organizer_id := 1, status := EventStatus.published, starts_at := 10,
    ends_at := none, address_text := none, latitude := 0, longitude := 0,
    is_free := true, price_from := none, capacity := none,
    moderation_comment := none }

/-- Concrete draft event used by the witness instances. -/
def e2draft : EventRow :=
  { e1pub with id := 2, status := EventStatus.draft }

/-- Empty database, used by witness instances of the error-path claims. -/
def stEmptyDB : DBState :=
  { users := [], categories := [], events := [], rsvps := [], favorites := [],
    organizer_requests := [] }

/-- Database with a blocked user, used by witness instances. -/
def stBlocked : DBState :=
  { stEmptyDB with users := [userBlocked] }

/-- Database with one user, used by witness instances. -/
def stAlice : DBState :=
  { stEmptyDB with users := [userAlice] }

/-- Database with a published and a draft event, a favorite and an rsvp row,
used by witness instances. -/
def stPub : DBState :=
  { users := [userAlice], categories := [cat1], events := [e1pub, e2draft],
    rsvps := [{ id := 1, user_id := 1, event_id := 1, status := RSVPStatus.interested }],
    favorites := [{ id := 1, user_id := 1, event_id := 1 }],
    organizer_requests := [] }

/-- Database with a draft event only, used by witness instances. -/
def stDraft : DBState :=
  { users := [userAlice], categories := [cat1], events := [e2draft],
    rsvps := [], favorites := [], organizer_requests := [] }

/-- Database with a pending and a rejected organizer request, used by witness
instances. -/
def stOrgReq : DBState :=
  { stEmptyDB with
      users := [{ userBlocked with is_blocked := false }],
      organizer_requests :=
        [{ id := 1, user_id := 2, status := OrganizerRequestStatus.pending,
           message := none, admin_comment := none, resolved_at := none },
         { id := 2, user_id := 2, status := OrganizerRequestStatus.rejected,
           message := none, admin_comment := none, resolved_at := none }] }

/-- Concrete create payload used by witness instances. -/
def pCreate : EventCreate :=
  { title := "Новое событие", category_id := 1, starts_at := 5,
    latitude := 0, longitude := 0 }

/-- Concrete create payload with a dangling category, used by witness
instances. -/
def pCreateBadCat : EventCreate :=
  { pCreate with category_id := 42 }

/-- Concrete update payload with a dangling category, used by witness
instances. -/
def qUpdateBadCat : EventUpdatePayload :=
  { category_id := some 42 }

/-- Membership in an insertion step of the starts_at sort. -/
theorem mem_insertByStarts {a e : EventRow} {l : List EventRow} :
    a ∈ insertByStarts e l ↔ a = e ∨ a ∈ l := by
  induction l with
  | nil => simp [insertByStarts]
  | cons x xs ih =>
    simp only [insertByStarts]
    split
    · simp
    · simp [ih]
      tauto

/-- Membership is invariant under the starts_at sort. -/
theorem mem_sortByStarts {a : EventRow} {l : List EventRow} :
    a ∈ sortByStarts l ↔ a ∈ l := by
  induction l with
  | nil => simp [sortByStarts]
  | cons x xs ih => simp [sortByStarts, mem_insertByStarts, ih]

/-- C3: authentication rejects blocked accounts.  Whenever the bearer token
decodes to the id of an existing user whose is_blocked flag is set, the
dependency chain answers HTTP 403 with the unchanged state and the route
handler body never runs (the result is the same for every handler); and
login_user answers HTTP 403 for a blocked user even when the password
verifies. -/
theorem blocked_account_rejected {α : Type} (st : DBState) (uid : Nat) (u : UserRow)
    (handler : UserRow → DBState → Resp α × DBState)
    (verify : String → String → Bool) (username password : String)
    (hfind : st.users.find? (fun x => x.id == uid) = some u)
    (hblocked : u.is_blocked = true) :
    runAuthed st (.payload (some uid)) handler = (.err 403 "Аккаунт заблокирован", st)
    ∧ (∀ u2, st.users.find? (fun x => x.email == normalizeEmail username) = some u2 →
        u2.is_blocked = true → verify password u2.hashed_password = true →
        login_user verify st username password = .err 403 "Аккаунт заблокирован") := by
  constructor
  · have hc : get_current_user st (.payload (some uid)) = .err 403 "Аккаунт заблокирован" := by
      simp only [get_current_user, hfind, hblocked, if_true]
    simp only [runAuthed, hc]
  · intro u2 hf hb hv
    simp only [login_user, hf, hv, hb]
    simp

/-- Witness for blocked_account_rejected at a concrete blocked user. -/
theorem blocked_account_rejected_witness :
    runAuthed stBlocked (.payload (some 2)) (fun u s => (Resp.ok 200 u.id, s))
        = (.err 403 "Аккаунт заблокирован", stBlocked)
    ∧ login_user (fun a b => a == b) stBlocked "bob@example.com" "pw"
        = .err 403 "Аккаунт заблокирован" := by
  have h := blocked_account_rejected (α := Nat) stBlocked 2 userBlocked
    (fun u s => (Resp.ok 200 u.id, s)) (fun a b => a == b) "bob@example.com" "pw"
    (by decide) (by decide)
  exact ⟨h.1, h.2 userBlocked (by decide) (by decide) (by decide)⟩

/-- C10: remove_favorite always answers HTTP 200 with is_favorite false, even
when no favorite row (or no event) exists, and running it twice yields the
same response and final state as running it once. -/
theorem remove_favorite_total_idempotent (st : DBState) (u : UserRow) (eid : Nat) :
    (remove_favorite st u eid).1 = .ok 200 false
    ∧ remove_favorite (remove_favorite st u eid).2 u eid = remove_favorite st u eid := by
  refine ⟨rfl, ?_⟩
  unfold remove_favorite
  simp [List.filter_filter]

/-- C8: when the reset email cannot be sent the exception is swallowed: for a
request whose email belongs to an existing user, the response when sending
raises equals the HTTP 200 response when sending succeeds, the state is
unchanged, no email is delivered on the failing run, and on the succeeding
run one is. -/
theorem forgot_password_swallows_send_failure (st : DBState) (email : String)
    (h : ∃ u ∈ st.users, u.email = normalizeEmail email) :
    (forgot_password st email true).1 = .ok 200 forgotPasswordDetail
    ∧ (forgot_password st email true).1 = (forgot_password st email false).1
    ∧ (forgot_password st email true).2.1 = st
    ∧ (forgot_password st email true).2.2 = []
    ∧ (forgot_password st email false).2.2 ≠ [] := by
  unfold forgot_password
  cases hf : st.users.find? (fun u => u.email == normalizeEmail email) with
  | none =>
    exfalso
    obtain ⟨u, hu, he⟩ := h
    have := List.find?_eq_none.mp hf u hu
    simp [he] at this
  | some u => simp [hf]

/-- Witness for forgot_password_swallows_send_failure at a concrete user. -/
theorem forgot_password_swallows_send_failure_witness :
    (forgot_password stAlice "Alice@example.com " true).1 = .ok 200 forgotPasswordDetail
    ∧ (forgot_password stAlice "Alice@example.com " true).2.1 = stAlice :=
  have h := forgot_password_swallows_send_failure stAlice "Alice@example.com "
    ⟨userAlice, by decide, by decide⟩
  ⟨h.1, h.2.2.1⟩

/-- C9: forgot_password does not reveal account existence: a run on a state
where a user with the normalized email exists and a run on a state where none
does produce identical responses, whatever the email-send outcomes. -/
theorem forgot_password_noninterference (st1 st2 : DBState) (email : String)
    (b1 b2 : Bool)
    (h1 : ∃ u ∈ st1.users, u.email = normalizeEmail email)
    (h2 : ∀ u ∈ st2.users, u.email ≠ normalizeEmail email) :
    (forgot_password st1 email b1).1 = (forgot_password st2 email b2).1 := by
  unfold forgot_password
  cases hf1 : st1.users.find? (fun u => u.email == normalizeEmail email) <;>
    cases hf2 : st2.users.find? (fun u => u.email == normalizeEmail email) <;>
      simp [hf1, hf2]

/-- Witness for forgot_password_noninterference at concrete states. -/
theorem forgot_password_noninterference_witness :
    (forgot_password stAlice "alice@example.com" true).1
      = (forgot_password stEmptyDB "alice@example.com" false).1 :=
  forgot_password_noninterference stAlice stEmptyDB "alice@example.com" true false
    ⟨userAlice, by decide, by decide⟩ (by decide)

/-- C4: moderation gates visibility.  Every event returned by the public
list_events (under any filter combination) has status published; get_event
answers HTTP 404 whenever no event with the requested id has status published,
and a success response always carries a published stored event with that id;
list_my_favorites returns only published events. -/
theorem moderation_gates_visibility (st : DBState) (f : ListEventsQuery)
    (event_id : Nat) (current_user : UserRow) :
    (∀ e ∈ list_events st f, e.status = .published)
    ∧ ((∀ e ∈ st.events, ¬(e.id = event_id ∧ e.status = .published)) →
        get_event st event_id = .err 404 "Событие не найдено")
    ∧ (∀ e, get_event st event_id = .ok 200 e →
        e ∈ st.events ∧ e.id = event_id ∧ e.status = .published)
    ∧ (∀ e ∈ list_my_favorites st current_user, e.status = .published) := by
  refine ⟨?_, ?_, ?_, ?_⟩
  · intro e he
    unfold list_events at he
    have h1 := List.mem_of_mem_take he
    have h2 := List.mem_of_mem_drop h1
    have h3 := mem_sortByStarts.mp h2
    have h4 := (List.mem_filter.mp h3).2
    unfold eventMatchesFilters at h4
    have := (Bool.and_eq_true _ _).mp h4
    have := (Bool.and_eq_true _ _).mp this.1
    have := (Bool.and_eq_true _ _).mp this.1
    have := (Bool.and_eq_true _ _).mp this.1
    have := (Bool.and_eq_true _ _).mp this.1
    simpa using this.1
  · intro h
    unfold get_event
    have hn : st.events.find? (fun e => e.id == event_id && e.status == .published) = none := by
      apply List.find?_eq_none.mpr
      intro x hx
      have := h x hx
      simp only [Bool.and_eq_true, beq_iff_eq]
      tauto
    rw [hn]
  · intro e he
    unfold get_event at he
    cases hf : st.events.find? (fun x => x.id == event_id && x.status == .published) with
    | none => rw [hf] at he; exact absurd he (by simp)
    | some a =>
      rw [hf] at he
      have ha : a = e := by
        injection he with h1 h2
      subst ha
      have hm := List.mem_of_find?_eq_some hf
      have hp := List.find?_some hf
      simp only [Bool.and_eq_true, beq_iff_eq] at hp
      exact ⟨hm, hp.1, hp.2⟩
  · intro e he
    have h4 := (List.mem_filter.mp he).2
    have := (Bool.and_eq_true _ _).mp h4
    simpa using this.1

/-- Witness for moderation_gates_visibility at a concrete state: the published
event e1pub is listed publicly and in favorites, a missing id yields 404, and
fetching e1pub by id certifies membership and publication. -/
theorem moderation_gates_visibility_witness :
    get_event stPub 3 = .err 404 "Событие не найдено"
    ∧ e1pub.status = .published
    ∧ (e1pub ∈ stPub.events ∧ e1pub.id = 1 ∧ e1pub.status = .published) := by
  refine ⟨(moderation_gates_visibility stPub {} 3 userAlice).2.1 (by decide), ?_, ?_⟩
  · exact (moderation_gates_visibility stPub {} 3 userAlice).1 e1pub (by decide)
  · exact (moderation_gates_visibility stPub {} 1 userAlice).2.2.1 e1pub (by decide)

/-- A pointwise rewrite that keeps the (user_id, event_id) key of every rsvp
row preserves key uniqueness. -/
theorem rsvpsUnique_map_preserve {l : List RSVPRow} (f : RSVPRow → RSVPRow)
    (hid : ∀ x, (f x).user_id = x.user_id ∧ (f x).event_id = x.event_id)
    (h : rsvpsUnique l) : rsvpsUnique (l.map f) := by
  unfold rsvpsUnique at *
  refine List.Pairwise.map f (fun a b hab hc => ?_) h
  rw [(hid a).1, (hid b).1, (hid a).2, (hid b).2] at hc
  exact hab hc

/-- C2: at most one RSVP row and one favorite row per (user, event), and the
mutating handlers preserve this.  When a row for the pair already exists,
set_event_rsvp rewrites that row's status in place (state equals a pointwise
update, length unchanged) and add_favorite returns with the state unchanged. -/
theorem rsvp_favorite_unique_preserved (st : DBState) (u : UserRow) (eid : Nat)
    (ps : RSVPStatus)
    (hr : rsvpsUnique st.rsvps) (hf : favoritesUnique st.favorites) :
    rsvpsUnique (set_event_rsvp st u eid ps).2.rsvps
    ∧ favoritesUnique (add_favorite st u eid).2.favorites
    ∧ ((∃ e ∈ st.events, e.id = eid ∧ e.status = .published) →
       (∃ r ∈ st.rsvps, r.user_id = u.id ∧ r.event_id = eid) →
        (set_event_rsvp st u eid ps).2.rsvps
            = st.rsvps.map (fun x =>
                if x.user_id == u.id && x.event_id == eid then { x with status := ps } else x)
        ∧ (set_event_rsvp st u eid ps).2.rsvps.length = st.rsvps.length)
    ∧ ((∃ x ∈ st.favorites, x.user_id = u.id ∧ x.event_id = eid) →
        (add_favorite st u eid).2 = st) := by
  refine ⟨?_, ?_, ?_, ?_⟩
  · unfold set_event_rsvp
    cases he : st.events.find? (fun e => e.id == eid && e.status == .published) with
    | none => exact hr
    | some ev =>
      cases hrf : st.rsvps.find? (fun r => r.user_id == u.id && r.event_id == eid) with
      | none =>
        simp only []
        unfold rsvpsUnique
        rw [List.pairwise_append]
        refine ⟨hr, by simp, ?_⟩
        intro a ha b hb
        have hnb := List.find?_eq_none.mp hrf a ha
        simp only [Bool.and_eq_true, beq_iff_eq] at hnb
        simp only [List.mem_singleton] at hb
        subst hb
        simp only []
        intro hc
        exact hnb ⟨hc.1, hc.2⟩
      | some r =>
        simp only []
        exact rsvpsUnique_map_preserve _
          (fun x => by constructor <;> (split <;> rfl)) hr
  · unfold add_favorite
    cases he : st.events.find? (fun e => e.id == eid && e.status == .published) with
    | none => exact hf
    | some ev =>
      cases hff : st.favorites.find? (fun x => x.user_id == u.id && x.event_id == eid) with
      | some x => exact hf
      | none =>
        simp only []
        unfold favoritesUnique
        rw [List.pairwise_append]
        refine ⟨hf, by simp, ?_⟩
        intro a ha b hb
        have hnb := List.find?_eq_none.mp hff a ha
        simp only [Bool.and_eq_true, beq_iff_eq] at hnb
        simp only [List.mem_singleton] at hb
        subst hb
        simp only []
        intro hc
        exact hnb ⟨hc.1, hc.2⟩
  · intro hev hrow
    have he : st.events.find? (fun e => e.id == eid && e.status == .published) ≠ none := by
      intro hn
      obtain ⟨e, hm, h1, h2⟩ := hev
      have := List.find?_eq_none.mp hn e hm
      simp [h1, h2] at this
    cases hef : st.events.find? (fun e => e.id == eid && e.status == .published) with
    | none => exact absurd hef he
    | some ev =>
      have hrn : st.rsvps.find? (fun r => r.user_id == u.id && r.event_id == eid) ≠ none := by
        intro hn
        obtain ⟨r, hm, h1, h2⟩ := hrow
        have := List.find?_eq_none.mp hn r hm
        simp [h1, h2] at this
      cases hrf : st.rsvps.find? (fun r => r.user_id == u.id && r.event_id == eid) with
      | none => exact absurd hrf hrn
      | some r =>
        unfold set_event_rsvp
        rw [hef, hrf]
        simp
  · intro hfav
    have hfn : st.favorites.find? (fun x => x.user_id == u.id && x.event_id == eid) ≠ none := by
      intro hn
      obtain ⟨x, hm, h1, h2⟩ := hfav
      have := List.find?_eq_none.mp hn x hm
      simp [h1, h2] at this
    cases hff : st.favorites.find? (fun x => x.user_id == u.id && x.event_id == eid) with
    | none => exact absurd hff hfn
    | some x =>
      unfold add_favorite
      cases he : st.events.find? (fun e => e.id == eid && e.status == .published) with
      | none => rfl
      | some ev => rw [hff]

/-- Witness for rsvp_favorite_unique_preserved at the concrete state stPub,
which already holds an rsvp row and a favorite row for (alice, event 1). -/
theorem rsvp_favorite_unique_preserved_witness :
    rsvpsUnique (set_event_rsvp stPub userAlice 1 RSVPStatus.going).2.rsvps
    ∧ (set_event_rsvp stPub userAlice 1 RSVPStatus.going).2.rsvps.length
        = stPub.rsvps.length
    ∧ (add_favorite stPub userAlice 1).2 = stPub := by
  have h := rsvp_favorite_unique_preserved stPub userAlice 1 RSVPStatus.going
    (by unfold rsvpsUnique; decide) (by unfold favoritesUnique; decide)
  refine ⟨h.1, ?_, ?_⟩
  · exact (h.2.2.1 ⟨e1pub, by decide, by decide, by decide⟩
      ⟨{ id := 1, user_id := 1, event_id := 1, status := RSVPStatus.interested },
        by decide, by decide, by decide⟩).2
  · exact h.2.2.2 ⟨{ id := 1, user_id := 1, event_id := 1 }, by decide, by decide, by decide⟩

/-- C5: approving a pending organizer request sets the request to approved
with resolved_at filled, and sets the requesting user's role to organizer, in
the single state transition of the same commit; approving a request whose
status is not pending answers HTTP 400 and leaves the whole state (request and
user included) unchanged. -/
theorem approve_organizer_request_spec (st : DBState) (now : Int)
    (request_id : Nat) (req : OrganizerRequestRow)
    (hreq : st.organizer_requests.find? (fun r => r.id == request_id) = some req) :
    (req.status = .pending →
      ∀ usr, st.users.find? (fun x => x.id == req.user_id) = some usr →
        (approve_organizer_request st now request_id).1 = .ok 200 (approvedRow now req)
        ∧ (approvedRow now req).status = .approved
        ∧ (approvedRow now req).resolved_at = some now
        ∧ (approvedRow now req).id = req.id
        ∧ (approve_organizer_request st now request_id).2.organizer_requests
            = st.organizer_requests.map (fun r =>
                if r.id == request_id then approvedRow now req else r)
        ∧ (approve_organizer_request st now request_id).2.users
            = st.users.map (fun x =>
                if x.id == req.user_id then { x with role := UserRole.organizer } else x))
    ∧ (req.status ≠ .pending →
        (approve_organizer_request st now request_id).1
            = .err 400 "Можно одобрить только заявку в статусе pending"
        ∧ (approve_organizer_request st now request_id).2 = st) := by
  constructor
  · intro hp usr husr
    unfold approve_organizer_request
    rw [hreq]
    simp only [hp, beq_self_eq_true, Bool.not_true, if_false, husr]
    exact ⟨rfl, rfl, rfl, rfl, rfl, rfl⟩
  · intro hnp
    have hb : (req.status == OrganizerRequestStatus.pending) = false := by
      simp [hnp]
    unfold approve_organizer_request
    rw [hreq]
    simp only [hb, Bool.not_false, if_true]
    exact ⟨trivial, trivial⟩

/-- Witness for approve_organizer_request_spec at a concrete state holding a
pending request (id 1) and a rejected request (id 2). -/
theorem approve_organizer_request_spec_witness :
    (approve_organizer_request stOrgReq 77 1).1
        = .ok 200 (approvedRow 77
            { id := 1, user_id := 2, status := OrganizerRequestStatus.pending,
              message := none, admin_comment := none, resolved_at := none })
    ∧ (approvedRow 77
          { id := 1, user_id := 2, status := OrganizerRequestStatus.pending,
            message := none, admin_comment := none, resolved_at := none }).resolved_at
        = some 77
    ∧ (approve_organizer_request stOrgReq 77 2).1
        = .err 400 "Можно одобрить только заявку в статусе pending"
    ∧ (approve_organizer_request stOrgReq 77 2).2 = stOrgReq := by
  have h1 := approve_organizer_request_spec stOrgReq 77 1
    { id := 1, user_id := 2, status := OrganizerRequestStatus.pending,
      message := none, admin_comment := none, resolved_at := none } (by decide)
  have h2 := approve_organizer_request_spec stOrgReq 77 2
    { id := 2, user_id := 2, status := OrganizerRequestStatus.rejected,
      message := none, admin_comment := none, resolved_at := none } (by decide)
  have hu := h1.1 rfl { userBlocked with is_blocked := false } (by decide)
  have he := h2.2 (by decide)
  exact ⟨hu.1, hu.2.2.1, he.1, he.2⟩

/-- Every state-changing handler either returns the input state untouched or
answers with a success response: preparation for the no-partial-failure
claim. -/
theorem handlers_state_or_ok (st : DBState) (u : UserRow)
    (event_id request_id : Nat) (ps : RSVPStatus) (p : EventCreate)
    (q : EventUpdatePayload) (comment : Option String) (now : Int) :
    ((set_event_rsvp st u event_id ps).2 = st ∨ (set_event_rsvp st u event_id ps).1.isErr = false)
    ∧ ((add_favorite st u event_id).2 = st ∨ (add_favorite st u event_id).1.isErr = false)
    ∧ ((create_event st u p).2 = st ∨ (create_event st u p).1.isErr = false)
    ∧ ((update_event st u event_id q).2 = st ∨ (update_event st u event_id q).1.isErr = false)
    ∧ ((submit_event_for_moderation st u event_id).2 = st
        ∨ (submit_event_for_moderation st u event_id).1.isErr = false)
    ∧ ((publish_event st event_id comment).2 = st
        ∨ (publish_event st event_id comment).1.isErr = false)
    ∧ ((reject_event st event_id comment).2 = st
        ∨ (reject_event st event_id comment).1.isErr = false)
    ∧ ((approve_organizer_request st now request_id).2 = st
        ∨ (approve_organizer_request st now request_id).1.isErr = false) := by
  refine ⟨?_, ?_, ?_, ?_, ?_, ?_, ?_, ?_⟩
  · unfold set_event_rsvp
    repeat' split
    all_goals simp [Resp.isErr]
  · unfold add_favorite
    repeat' split
    all_goals simp [Resp.isErr]
  · unfold create_event
    repeat' split
    all_goals simp [Resp.isErr]
  · unfold update_event finishUpdate
    repeat' split
    all_goals simp [Resp.isErr]
  · unfold submit_event_for_moderation
    repeat' split
    all_goals simp [Resp.isErr]
  · unfold publish_event
    repeat' split
    all_goals simp [Resp.isErr]
  · unfold reject_event
    repeat' split
    all_goals simp [Resp.isErr]
  · unfold approve_organizer_request
    repeat' split
    all_goals simp [Resp.isErr]

/-- C7: no partial-failure semantics.  For each state-changing handler, a
request that terminates with an error response leaves the persistent state
exactly as it was; in particular update_event failing its category-existence
check with HTTP 400 (after title and description were already assigned in the
session) leaves the stored event unchanged.  The transaction model follows
the spec, see sessionRollsBackOnError. -/
theorem error_response_leaves_state_unchanged (st : DBState) (u : UserRow)
    (event_id request_id : Nat) (ps : RSVPStatus) (p : EventCreate)
    (q : EventUpdatePayload) (comment : Option String) (now : Int) :
    ((set_event_rsvp st u event_id ps).1.isErr = true → (set_event_rsvp st u event_id ps).2 = st)
    ∧ ((add_favorite st u event_id).1.isErr = true → (add_favorite st u event_id).2 = st)
    ∧ ((create_event st u p).1.isErr = true → (create_event st u p).2 = st)
    ∧ ((update_event st u event_id q).1.isErr = true → (update_event st u event_id q).2 = st)
    ∧ ((submit_event_for_moderation st u event_id).1.isErr = true →
        (submit_event_for_moderation st u event_id).2 = st)
    ∧ ((publish_event st event_id comment).1.isErr = true →
        (publish_event st event_id comment).2 = st)
    ∧ ((reject_event st event_id comment).1.isErr = true →
        (reject_event st event_id comment).2 = st)
    ∧ ((approve_organizer_request st now request_id).1.isErr = true →
        (approve_organizer_request st now request_id).2 = st) := by
  obtain ⟨h1, h2, h3, h4, h5, h6, h7, h8⟩ :=
    handlers_state_or_ok st u event_id request_id ps p q comment now
  refine ⟨?_, ?_, ?_, ?_, ?_, ?_, ?_, ?_⟩ <;> intro h
  · rcases h1 with h2 | h2
    · exact h2
    · rw [h] at h2; cases h2
  · rcases h2 with hx | hx
    · exact hx
    · rw [h] at hx; cases hx
  · rcases h3 with hx | hx
    · exact hx
    · rw [h] at hx; cases hx
  · rcases h4 with hx | hx
    · exact hx
    · rw [h] at hx; cases hx
  · rcases h5 with hx | hx
    · exact hx
    · rw [h] at hx; cases hx
  · rcases h6 with hx | hx
    · exact hx
    · rw [h] at hx; cases hx
  · rcases h7 with hx | hx
    · exact hx
    · rw [h] at hx; cases hx
  · rcases h8 with hx | hx
    · exact hx
    · rw [h] at hx; cases hx

/-- Witness for error_response_leaves_state_unchanged: on the empty database,
every handler answers 404 and the state is untouched. -/
theorem error_response_leaves_state_unchanged_witness :
    (set_event_rsvp stEmptyDB userAlice 1 RSVPStatus.going).2 = stEmptyDB
    ∧ (add_favorite stEmptyDB userAlice 1).2 = stEmptyDB
    ∧ (create_event stEmptyDB userAlice pCreate).2 = stEmptyDB
    ∧ (update_event stEmptyDB userAlice 1 qUpdateBadCat).2 = stEmptyDB
    ∧ (submit_event_for_moderation stEmptyDB userAlice 1).2 = stEmptyDB
    ∧ (publish_event stEmptyDB 1 none).2 = stEmptyDB
    ∧ (reject_event stEmptyDB 1 none).2 = stEmptyDB
    ∧ (approve_organizer_request stEmptyDB 0 1).2 = stEmptyDB := by
  obtain ⟨h1, h2, h3, h4, h5, h6, h7, h8⟩ :=
    error_response_leaves_state_unchanged stEmptyDB userAlice 1 1 RSVPStatus.going
      pCreate qUpdateBadCat none 0
  exact ⟨h1 (by decide), h2 (by decide), h3 (by decide), h4 (by decide),
    h5 (by decide), h6 (by decide), h7 (by decide), h8 (by decide)⟩

/-- The tail assignments of update_event never touch category_id. -/
theorem applyUpdateTail_category_id (p : EventUpdatePayload) (e : EventRow) :
    (applyUpdateTail p e).category_id = e.category_id := by
  unfold applyUpdateTail
  cases hb : p.is_free with
  | none => rfl
  | some b => cases b <;> rfl

/-- The tail assignments of update_event never touch organizer_id. -/
theorem applyUpdateTail_organizer_id (p : EventUpdatePayload) (e : EventRow) :
    (applyUpdateTail p e).organizer_id = e.organizer_id := by
  unfold applyUpdateTail
  cases hb : p.is_free with
  | none => rfl
  | some b => cases b <;> rfl

/-- The tail assignments of update_event never touch status. -/
theorem applyUpdateTail_status (p : EventUpdatePayload) (e : EventRow) :
    (applyUpdateTail p e).status = e.status := by
  unfold applyUpdateTail
  cases hb : p.is_free with
  | none => rfl
  | some b => cases b <;> rfl

/-- The stored row of a successful update keeps the event's category_id. -/
theorem finalRow_category_id (u : UserRow) (p : EventUpdatePayload)
    (wp : Bool) (e : EventRow) :
    (finalRow u p wp e).category_id = e.category_id := by
  unfold finalRow
  split
  · exact applyUpdateTail_category_id p e
  · exact applyUpdateTail_category_id p e

/-- The stored row of a successful update keeps the event's organizer_id. -/
theorem finalRow_organizer_id (u : UserRow) (p : EventUpdatePayload)
    (wp : Bool) (e : EventRow) :
    (finalRow u p wp e).organizer_id = e.organizer_id := by
  unfold finalRow
  split
  · exact applyUpdateTail_organizer_id p e
  · exact applyUpdateTail_organizer_id p e

/-- The stored row of a successful update has status pending_moderation when a
non-admin edited a published event, and the unchanged status otherwise. -/
theorem finalRow_status (u : UserRow) (p : EventUpdatePayload)
    (wp : Bool) (e : EventRow) :
    (finalRow u p wp e).status
      = if (u.role != UserRole.admin && wp) = true then EventStatus.pending_moderation
        else e.status := by
  unfold finalRow
  split <;> rename_i hsp
  · rfl
  · exact applyUpdateTail_status p e

/-- A state produced by finishUpdate keeps referential validity of events,
provided the written row itself references an existing category and
organizer. -/
theorem finishUpdate_refs (st : DBState) (u : UserRow) (event_id : Nat)
    (q : EventUpdatePayload) (wp : Bool) (e : EventRow)
    (hv : eventRefsValid st)
    (hcat : ∃ c ∈ st.categories, c.id = (finalRow u q wp e).category_id)
    (horg : ∃ x ∈ st.users, x.id = (finalRow u q wp e).organizer_id) :
    eventRefsValid (finishUpdate st u event_id q wp e).2 := by
  intro e2 he2
  unfold finishUpdate at he2
  simp only [List.mem_map] at he2
  obtain ⟨x, hx, hgx⟩ := he2
  by_cases hid : (x.id == event_id) = true
  · rw [if_pos hid] at hgx
    subst hgx
    exact ⟨hcat, horg⟩
  · rw [if_neg hid] at hgx
    subst hgx
    exact hv x hx

/-- C6: every event references a valid category and organizer, preserved by
create and update.  Creating with a category_id matching no category answers
HTTP 400 and creates nothing; a successful create stores the authenticated
user as organizer; updating to a nonexistent category_id never succeeds, and
answers HTTP 400 whenever the earlier existence/ownership/archive guards
pass; both handlers preserve referential validity. -/
theorem event_references_stay_valid (st : DBState) (u : UserRow)
    (p : EventCreate) (event_id : Nat) (q : EventUpdatePayload)
    (hu : u ∈ st.users) (hv : eventRefsValid st) :
    (st.categories.find? (fun c => c.id == p.category_id) = none →
      (create_event st u p).1 = .err 400 "Указанная категория не существует"
      ∧ (create_event st u p).2 = st)
    ∧ eventRefsValid (create_event st u p).2
    ∧ (∀ cd e, (create_event st u p).1 = .ok cd e → e.organizer_id = u.id)
    ∧ (∀ cid, q.category_id = some cid →
        st.categories.find? (fun c => c.id == cid) = none →
        (update_event st u event_id q).1.isOk = false)
    ∧ (∀ cid ev, q.category_id = some cid →
        st.categories.find? (fun c => c.id == cid) = none →
        st.events.find? (fun e => e.id == event_id) = some ev →
        (u.role != UserRole.admin && ev.organizer_id != u.id) = false →
        (u.role != UserRole.admin && ev.status == EventStatus.archived) = false →
        (update_event st u event_id q).1 = .err 400 "Указанная категория не существует")
    ∧ eventRefsValid (update_event st u event_id q).2 := by
  refine ⟨?_, ?_, ?_, ?_, ?_, ?_⟩
  · intro hm
    unfold create_event
    rw [hm]
    exact ⟨rfl, rfl⟩
  · unfold create_event
    cases hc : st.categories.find? (fun c => c.id == p.category_id) with
    | none => exact hv
    | some c =>
      intro e he
      simp only [List.mem_append, List.mem_singleton] at he
      cases he with
      | inl h => exact hv e h
      | inr h =>
        subst h
        refine ⟨⟨c, List.mem_of_find?_eq_some hc, ?_⟩, ⟨u, hu, rfl⟩⟩
        have := List.find?_some hc
        simpa using this
  · intro cd e he
    unfold create_event at he
    cases hc : st.categories.find? (fun c => c.id == p.category_id) with
    | none => rw [hc] at he; exact absurd he (by simp)
    | some c =>
      rw [hc] at he
      injection he with h1 h2
      rw [← h2]
  · intro cid hq hm
    unfold update_event
    cases he : st.events.find? (fun e => e.id == event_id) with
    | none => simp [Resp.isOk]
    | some ev =>
      simp only [hq, hm]
      repeat' split
      all_goals simp [Resp.isOk]
  · intro cid ev hq hm he hown harch
    unfold update_event
    simp only [he, hown, harch, hq, hm, Bool.false_eq_true, if_false]
  · unfold update_event
    cases he : st.events.find? (fun e => e.id == event_id) with
    | none => exact hv
    | some ev =>
      simp only []
      split
      · exact hv
      · split
        · exact hv
        · split
          · apply finishUpdate_refs st u event_id q _ _ hv
            · rw [finalRow_category_id]
              exact (hv ev (List.mem_of_find?_eq_some he)).1
            · rw [finalRow_organizer_id]
              exact (hv ev (List.mem_of_find?_eq_some he)).2
          · split
            · exact hv
            · rename_i c hc
              apply finishUpdate_refs st u event_id q _ _ hv
              · rw [finalRow_category_id]
                refine ⟨c, List.mem_of_find?_eq_some hc, ?_⟩
                have := List.find?_some hc
                simpa using this
              · rw [finalRow_organizer_id]
                exact (hv ev (List.mem_of_find?_eq_some he)).2

/-- Witness for event_references_stay_valid at the concrete state stPub. -/
theorem event_references_stay_valid_witness :
    ((create_event stPub userAlice pCreateBadCat).1
        = .err 400 "Указанная категория не существует"
      ∧ (create_event stPub userAlice pCreateBadCat).2 = stPub)
    ∧ eventRefsValid (create_event stPub userAlice pCreate).2
    ∧ (update_event stPub userAlice 1 qUpdateBadCat).1.isOk = false
    ∧ (update_event stPub userAlice 1 qUpdateBadCat).1
        = .err 400 "Указанная категория не существует" := by
  have h1 := event_references_stay_valid stPub userAlice pCreateBadCat 1 qUpdateBadCat
    (by decide) (by unfold eventRefsValid; decide)
  have h2 := event_references_stay_valid stPub userAlice pCreate 1 qUpdateBadCat
    (by decide) (by unfold eventRefsValid; decide)
  refine ⟨h1.1 (by decide), h2.2.1, ?_, ?_⟩
  · exact h1.2.2.2.1 42 (by decide) (by decide)
  · exact h1.2.2.2.2.1 42 e1pub (by decide) (by decide) (by decide) (by decide) (by decide)

/-- The tail assignments of update_event never touch the primary key. -/
theorem applyUpdateTail_id (p : EventUpdatePayload) (e : EventRow) :
    (applyUpdateTail p e).id = e.id := by
  unfold applyUpdateTail
  cases hb : p.is_free with
  | none => rfl
  | some b => cases b <;> rfl

/-- The stored row of a successful update keeps the primary key. -/
theorem finalRow_id (u : UserRow) (p : EventUpdatePayload)
    (wp : Bool) (e : EventRow) :
    (finalRow u p wp e).id = e.id := by
  unfold finalRow
  split
  · exact applyUpdateTail_id p e
  · exact applyUpdateTail_id p e

/-- With pairwise-distinct event ids, any member whose id matches the searched
id is the row found by find?. -/
theorem eq_of_find?_id_unique {l : List EventRow} {n : Nat} {ev x : EventRow}
    (hp : l.Pairwise (fun a b => a.id ≠ b.id))
    (hf : l.find? (fun e => e.id == n) = some ev)
    (hx : x ∈ l) (hxn : x.id = n) : x = ev := by
  induction l with
  | nil => cases hx
  | cons y t ih =>
    rw [List.pairwise_cons] at hp
    cases hx with
    | head =>
      have hy : (x.id == n) = true := by simp [hxn]
      simp only [List.find?_cons, hy, Option.some.injEq] at hf
      exact hf
    | tail _ h =>
      by_cases hy : (y.id == n) = true
      · exfalso
        have hne : y.id ≠ x.id := hp.1 x h
        simp only [beq_iff_eq] at hy
        exact hne (hy.trans hxn.symm)
      · have hy2 : (y.id == n) = false := by simpa using hy
        simp only [List.find?_cons, hy2] at hf
        exact ih hp.2 hf h

/-- A request that does not touch the event table is a legal status step. -/
theorem statusStepOKB_refl (l : List EventRow) : statusStepOKB l l = true := by
  induction l with
  | nil => rfl
  | cons a t ih => simp [statusStepOKB, ih]

/-- A pointwise rewrite whose rows keep their id and move along implemented
transitions (or keep their status) is a legal status step. -/
theorem statusStepOKB_map {l : List EventRow} {g : EventRow → EventRow}
    (h : ∀ x ∈ l, (g x).id = x.id
        ∧ ((g x).status = x.status ∨ codeTransition x.status (g x).status = true)) :
    statusStepOKB l (l.map g) = true := by
  induction l with
  | nil => rfl
  | cons a t ih =>
    have ha := h a (by simp)
    simp only [List.map_cons, statusStepOKB]
    have h1 : (a.id == (g a).id) = true := by simp [ha.1]
    have h2 : (a.status == (g a).status || codeTransition a.status (g a).status) = true := by
      rcases ha.2 with hs | hs
      · simp [hs]
      · simp [hs]
    rw [h1, h2]
    simp [ih (fun x hx => h x (List.mem_cons_of_mem a hx))]

/-- The success path of update_event is a legal status step: the stored row
keeps its id and either keeps its status or moves published →
pending_moderation (non-admin edit of a published event). -/
theorem update_map_step_ok (st : DBState) (u : UserRow) (event_id : Nat)
    (q : EventUpdatePayload) (ev base : EventRow)
    (hids : st.events.Pairwise (fun a b => a.id ≠ b.id))
    (he : st.events.find? (fun e => e.id == event_id) = some ev)
    (hbid : base.id = ev.id)
    (hbst : base.status = ev.status) :
    statusStepOKB st.events
      (st.events.map (fun x =>
        if x.id == event_id then
          finalRow u q (ev.status == EventStatus.published) base
        else x))
      = true := by
  apply statusStepOKB_map
  intro x hx
  by_cases hid : (x.id == event_id) = true
  · rw [if_pos hid]
    have hxev : x = ev := by
      apply eq_of_find?_id_unique hids he hx
      simpa using hid
    subst hxev
    constructor
    · rw [finalRow_id, hbid]
    · rw [finalRow_status, hbst]
      by_cases hw : (u.role != UserRole.admin && (x.status == EventStatus.published)) = true
      · rw [if_pos hw]
        right
        have hpub : x.status = EventStatus.published := by
          have := (Bool.and_eq_true _ _).mp hw
          simpa using this.2
        simp [codeTransition, hpub]
      · rw [if_neg hw]
        exact Or.inl rfl
  · rw [if_neg hid]
    exact ⟨rfl, Or.inl rfl⟩

/-- C1 counterexample: publish_event succeeds on a draft event and moves it
draft → published, a pair that is not among the transitions listed by the
spec's state machine (draft → pending_moderation → published/rejected →
archived). -/
theorem event_status_machine_counterexample :
    (publish_event stDraft 2 none).1.isOk = true
    ∧ stDraft.events.map EventRow.status = [EventStatus.draft]
    ∧ (publish_event stDraft 2 none).2.events.map EventRow.status
        = [EventStatus.published]
    ∧ specTransition EventStatus.draft EventStatus.published = false := by
  decide

/-- C1 amended: with pairwise-distinct event ids, every status-changing
handler moves each event row along the transitions the code implements
(codeTransition) or leaves its status unchanged: submit moves draft/rejected
to pending_moderation, publish moves any non-published status to published,
reject moves pending_moderation to rejected, and a non-admin update of a
published event moves it to pending_moderation; no handler produces
archived. -/
theorem event_status_transitions_amended (st : DBState) (u : UserRow)
    (event_id : Nat) (q : EventUpdatePayload) (comment : Option String)
    (hids : st.events.Pairwise (fun a b => a.id ≠ b.id)) :
    statusStepOKB st.events (submit_event_for_moderation st u event_id).2.events = true
    ∧ statusStepOKB st.events (publish_event st event_id comment).2.events = true
    ∧ statusStepOKB st.events (reject_event st event_id comment).2.events = true
    ∧ statusStepOKB st.events (update_event st u event_id q).2.events = true := by
  refine ⟨?_, ?_, ?_, ?_⟩
  · unfold submit_event_for_moderation
    cases he : st.events.find? (fun e => e.id == event_id) with
    | none => exact statusStepOKB_refl _
    | some ev =>
      simp only []
      split
      · exact statusStepOKB_refl _
      · split
        · exact statusStepOKB_refl _
        · rename_i hguard
          apply statusStepOKB_map
          intro x hx
          by_cases hid : (x.id == event_id) = true
          · rw [if_pos hid]
            have hxev : x = ev := by
              apply eq_of_find?_id_unique hids he hx
              simpa using hid
            subst hxev
            refine ⟨rfl, Or.inr ?_⟩
            have hs : (x.status == EventStatus.draft || x.status == EventStatus.rejected) = true := by
              revert hguard
              cases x.status <;> simp
            simp [codeTransition, hs]
          · rw [if_neg hid]
            exact ⟨rfl, Or.inl rfl⟩
  · unfold publish_event
    cases he : st.events.find? (fun e => e.id == event_id) with
    | none => exact statusStepOKB_refl _
    | some ev =>
      simp only []
      split
      · exact statusStepOKB_refl _
      · rename_i hguard
        apply statusStepOKB_map
        intro x hx
        by_cases hid : (x.id == event_id) = true
        · rw [if_pos hid]
          have hxev : x = ev := by
            apply eq_of_find?_id_unique hids he hx
            simpa using hid
          subst hxev
          refine ⟨rfl, Or.inr ?_⟩
          have hs : (x.status == EventStatus.published) = false := by
            revert hguard
            cases x.status <;> simp
          simp [codeTransition, hs]
        · rw [if_neg hid]
          exact ⟨rfl, Or.inl rfl⟩
  · unfold reject_event
    cases he : st.events.find? (fun e => e.id == event_id) with
    | none => exact statusStepOKB_refl _
    | some ev =>
      simp only []
      split
      · exact statusStepOKB_refl _
      · rename_i hguard
        apply statusStepOKB_map
        intro x hx
        by_cases hid : (x.id == event_id) = true
        · rw [if_pos hid]
          have hxev : x = ev := by
            apply eq_of_find?_id_unique hids he hx
            simpa using hid
          subst hxev
          refine ⟨rfl, Or.inr ?_⟩
          have hs : x.status = EventStatus.pending_moderation := by
            revert hguard
            cases x.status <;> simp
          simp [codeTransition, hs]
        · rw [if_neg hid]
          exact ⟨rfl, Or.inl rfl⟩
  · unfold update_event finishUpdate
    cases he : st.events.find? (fun e => e.id == event_id) with
    | none => exact statusStepOKB_refl _
    | some ev =>
      simp only []
      split
      · exact statusStepOKB_refl _
      · split
        · exact statusStepOKB_refl _
        · split
          · exact update_map_step_ok st u event_id q ev _ hids he rfl rfl
          · split
            · exact statusStepOKB_refl _
            · exact update_map_step_ok st u event_id q ev _ hids he rfl rfl

/-- Witness for event_status_transitions_amended at the concrete draft-event
state: publishing and submitting both perform legal implemented steps. -/
theorem event_status_transitions_amended_witness :
    statusStepOKB stDraft.events (publish_event stDraft 2 none).2.events = true
    ∧ statusStepOKB stDraft.events
        (submit_event_for_moderation stDraft userAlice 2).2.events = true := by
  have h := event_status_transitions_amended stDraft userAlice 2 qUpdateBadCat none
    (by decide)
  exact ⟨h.2.1, h.1⟩
